import Mathlib

/-!
Verification of the control panel task generator (`src/generator.py`).

The generator is embedded shallowly:
* dynamically typed control state values become the sum type `CtrlVal`;
* Python floats become exact rationals `ℚ` (the arithmetic performed on
  progress values is small and exact);
* `int(x)` truncation toward zero becomes `pyTrunc`, Python's `%` on a
  positive divisor becomes `pyFmod` / `Int.emod`, `//` becomes `Int.fdiv`;
* the global random generator becomes an explicit stream of naturals
  (`List Nat`); `random.randint lo hi` consumes one element `n` and yields
  `lo + n % (hi - lo + 1)`, `random.choice xs` consumes one element and
  yields `xs[n % xs.length]`.  Rejection-sampling loops recurse on the
  stream and return `none` when it is exhausted.
-/

namespace ControlPanelSpec

/-- State value of a control: booleans for switches/buttons, integers for
sliders/dials (the Python code stores these in untyped `any` fields). -/
inductive CtrlVal where
  | boolV (v : Bool)
  | intV (v : Int)
deriving DecidableEq

/-- Truncation toward zero, the semantics of Python's `int()` on a float. -/
def pyTrunc (q : ℚ) : Int := if q < 0 then ⌈q⌉ else ⌊q⌋

/-- Python's `%` on floats with a positive modulus: `q - m * ⌊q / m⌋`. -/
def pyFmod (q m : ℚ) : ℚ := q - m * ⌊q / m⌋

/-- Shortest-arc delta computed by the dial branch of
`_interpolate_control_state`: raw `target - initial`, minus 360 when above
180, plus 360 when below -180. -/
def dialDiff (initial target : Int) : Int :=
  if 180 < target - initial then target - initial - 360
  else if target - initial < -180 then target - initial + 360
  else target - initial

/-- Embedding of `TaskGenerator._interpolate_control_state`
(generator.py lines 536-565).  The slider and dial branches perform
arithmetic on the state values, so they require integer values and give
`none` (a Python `TypeError`) otherwise. -/
def interpolateControlState (ctype : String) (initial target : CtrlVal)
    (progress : ℚ) : Option CtrlVal :=
  if ctype = "switch" then
    some (if (1 : ℚ)/2 ≤ progress then target else initial)
  else if ctype = "slider" then
    match initial, target with
    | .intV a, .intV b =>
        some (.intV (pyTrunc ((a : ℚ) + ((b : ℚ) - (a : ℚ)) * progress)))
    | _, _ => none
  else if ctype = "button" then
    some (if (1 : ℚ)/2 ≤ progress then target else initial)
  else if ctype = "dial" then
    match initial, target with
    | .intV a, .intV b =>
        some (.intV (pyTrunc (pyFmod ((a : ℚ) + ((dialDiff a b : Int) : ℚ) * progress) 360)))
    | _, _ => none
  else
    some (if (1 : ℚ)/2 ≤ progress then target else initial)

/-- Dial interpolation exactly as the spec words it (§4.4): adjust the raw
delta into (-180, 180], then `(initial + delta × progress) mod 360`,
truncated to an integer. -/
def dialSpecFormula (initial target : Int) (progress : ℚ) : Int :=
  let delta := target - initial
  let delta := if 180 < delta then delta - 360
               else if delta < -180 then delta + 360 else delta
  pyTrunc (pyFmod ((initial : ℚ) + (delta : ℚ) * progress) 360)

lemma pyTrunc_intCast (a : Int) : pyTrunc (a : ℚ) = a := by
  unfold pyTrunc
  split
  · exact Int.ceil_intCast a
  · exact Int.floor_intCast a

/-- C2 counterexample: at initial 0, target 1, progress 9/10 the slider
branch truncates 0.9 to 0, whereas rounding the linear formula gives 1. -/
theorem slider_rounding_cex :
    interpolateControlState "slider" (.intV 0) (.intV 1) (9/10)
      ≠ some (.intV (round ((0 : ℚ) + ((1 : ℚ) - (0 : ℚ)) * (9/10)))) := by
  unfold interpolateControlState
  rw [if_neg (by decide), if_pos rfl]
  norm_num [pyTrunc, round_eq]

/-- C2 (amended): the slider branch of `_interpolate_control_state` returns
`int(initial + (target - initial) * progress)`, i.e. the linear formula
truncated toward zero (not rounded); in particular it returns `initial` at
progress 0, `target` at progress 1, and 50 for 0 → 100 at progress 1/2. -/
theorem slider_interpolation (a b : Int) (p : ℚ) :
    interpolateControlState "slider" (.intV a) (.intV b) p
      = some (.intV (pyTrunc ((a : ℚ) + ((b : ℚ) - (a : ℚ)) * p))) ∧
    interpolateControlState "slider" (.intV a) (.intV b) 0 = some (.intV a) ∧
    interpolateControlState "slider" (.intV a) (.intV b) 1 = some (.intV b) ∧
    interpolateControlState "slider" (.intV 0) (.intV 100) (1/2) = some (.intV 50) := by
  have heq : ∀ q : ℚ, interpolateControlState "slider" (.intV a) (.intV b) q
      = some (.intV (pyTrunc ((a : ℚ) + ((b : ℚ) - (a : ℚ)) * q))) := fun _ => rfl
  refine ⟨rfl, ?_, ?_, ?_⟩
  · rw [heq 0]
    have h : (a : ℚ) + ((b : ℚ) - (a : ℚ)) * 0 = (a : ℚ) := by ring
    rw [h, pyTrunc_intCast]
  · rw [heq 1]
    have h : (a : ℚ) + ((b : ℚ) - (a : ℚ)) * 1 = (b : ℚ) := by ring
    rw [h, pyTrunc_intCast]
  · unfold interpolateControlState
    rw [if_neg (by decide), if_pos rfl]
    norm_num [pyTrunc]

/-- C4: the dial branch of `_interpolate_control_state` computes the raw
delta `target - initial`, shifts it by ±360 into (-180, 180], and returns
`(initial + delta × progress) mod 360` truncated to an integer — exactly
the spec's formula — and interpolating from 10 to 350 at progress 1/2
yields 0 (the short arc through 0). -/
theorem dial_interpolation (a b : Int) (p : ℚ) :
    interpolateControlState "dial" (.intV a) (.intV b) p
      = some (.intV (dialSpecFormula a b p)) ∧
    interpolateControlState "dial" (.intV 10) (.intV 350) (1/2) = some (.intV 0) := by
  constructor
  · unfold interpolateControlState dialSpecFormula dialDiff
    rw [if_neg (by decide), if_neg (by decide), if_neg (by decide), if_pos rfl]
  · have h1 : dialDiff 10 350 = -20 := by decide
    unfold interpolateControlState
    rw [if_neg (by decide), if_neg (by decide), if_neg (by decide), if_pos rfl]
    norm_num [h1, pyFmod, pyTrunc]

/-- C5: the switch and button branches of `_interpolate_control_state` are
step functions: they return `initial` for progress < 1/2 and `target` for
progress ≥ 1/2. -/
theorem step_interpolation (iv tv : CtrlVal) (p : ℚ) :
    (p < 1/2 →
      interpolateControlState "switch" iv tv p = some iv ∧
      interpolateControlState "button" iv tv p = some iv) ∧
    ((1 : ℚ)/2 ≤ p →
      interpolateControlState "switch" iv tv p = some tv ∧
      interpolateControlState "button" iv tv p = some tv) := by
  constructor
  · intro hp
    constructor
    · unfold interpolateControlState
      rw [if_pos rfl, if_neg (not_le.mpr hp)]
    · unfold interpolateControlState
      rw [if_neg (by decide), if_neg (by decide), if_pos rfl, if_neg (not_le.mpr hp)]
  · intro hp
    constructor
    · unfold interpolateControlState
      rw [if_pos rfl, if_pos hp]
    · unfold interpolateControlState
      rw [if_neg (by decide), if_neg (by decide), if_pos rfl, if_pos hp]

/-- C5 witness: the step interpolation evaluated at progress 49/100 and 1/2
for a switch going from off to on. -/
theorem step_interpolation_witness :
    interpolateControlState "switch" (.boolV false) (.boolV true) (49/100)
      = some (.boolV false) ∧
    interpolateControlState "switch" (.boolV false) (.boolV true) (1/2)
      = some (.boolV true) :=
  ⟨((step_interpolation (.boolV false) (.boolV true) (49/100)).1 (by norm_num)).1,
   ((step_interpolation (.boolV false) (.boolV true) (1/2)).2 (by norm_num)).1⟩

/-- Model of `random.randint lo hi` (both bounds inclusive) over an explicit
stream of naturals: consume one element `n` and return `lo + n % (hi - lo + 1)`
with the rest of the stream; `none` when the stream is exhausted. -/
def pyRandint (lo hi : Int) : List Nat → Option (Int × List Nat)
  | [] => none
  | n :: rest => some (lo + (n : Int) % (hi - lo + 1), rest)

/-- Model of `random.choice xs` over the stream: consume one element `n` and
return `xs[n % xs.length]`. -/
def pyChoice {α : Type} (xs : List α) : List Nat → Option (α × List Nat)
  | [] => none
  | n :: rest => (xs[n % xs.length]?).map fun a => (a, rest)

/-- Slider target rejection loop of `_generate_control_states`
(generator.py lines 177-181): `target = random.randint(0, 100)` followed by
`while target == initial: target = random.randint(0, 100)`.  Each iteration
consumes one stream element `n`, giving the candidate `0 + n % 101`. -/
def resampleSlider (initial : Int) : List Nat → Option (Int × List Nat)
  | [] => none
  | n :: rest =>
      if ((n : Int) % 101) = initial then resampleSlider initial rest
      else some ((n : Int) % 101, rest)

/-- Dial target rejection loop of `_generate_control_states`
(generator.py lines 194-196): `target = random.randint(0, 360)` followed by
`while abs(target - initial) < 30: target = random.randint(0, 360)`.  Each
iteration consumes one stream element `n`, giving the candidate `0 + n % 361`. -/
def resampleDial (initial : Int) : List Nat → Option (Int × List Nat)
  | [] => none
  | n :: rest =>
      if (((n : Int) % 361) - initial).natAbs < 30 then resampleDial initial rest
      else some ((n : Int) % 361, rest)

/-- Embedding of `TaskGenerator._generate_control_states`
(generator.py lines 168-202) over the explicit randomness stream.  Returns
`(initial_state, target_state, label)`; `none` only when the stream runs out
before the rejection loops accept. -/
def generateControlStates (ctype : String) (rs : List Nat) :
    Option (CtrlVal × CtrlVal × String) :=
  if ctype = "switch" then
    match pyChoice [true, false] rs with
    | some (initial, rs1) =>
        match pyChoice ["Power", "Mode", "Enable", "State"] rs1 with
        | some (label, _) => some (.boolV initial, .boolV (!initial), label)
        | none => none
    | none => none
  else if ctype = "slider" then
    match pyRandint 0 100 rs with
    | some (initial, rs1) =>
        match resampleSlider initial rs1 with
        | some (target, rs2) =>
            match pyChoice ["Volume", "Speed", "Level", "Value"] rs2 with
            | some (label, _) => some (.intV initial, .intV target, label)
            | none => none
        | none => none
    | none => none
  else if ctype = "button" then
    match pyChoice ["Start", "Activate", "Run", "Execute"] rs with
    | some (label, _) => some (.boolV false, .boolV true, label)
    | none => none
  else if ctype = "dial" then
    match pyRandint 0 360 rs with
    | some (initial, rs1) =>
        match resampleDial initial rs1 with
        | some (target, rs2) =>
            match pyChoice ["Rotation", "Angle", "Position"] rs2 with
            | some (label, _) => some (.intV initial, .intV target, label)
            | none => none
        | none => none
    | none => none
  else
    some (.boolV false, .boolV true, "Control")

lemma resampleSlider_spec (initial : Int) (rs : List Nat) (t : Int)
    (rest : List Nat) (h : resampleSlider initial rs = some (t, rest)) :
    t ≠ initial ∧ 0 ≤ t ∧ t ≤ 100 := by
  induction rs generalizing rest with
  | nil => simp [resampleSlider] at h
  | cons n rs tail_ih =>
      rw [resampleSlider] at h
      by_cases hc : ((n : Int) % 101) = initial
      · rw [if_pos hc] at h
        exact tail_ih rest h
      · rw [if_neg hc] at h
        obtain ⟨h1, h2⟩ := Prod.mk.injEq .. ▸ Option.some.inj h
        subst h1
        exact ⟨hc, by omega⟩

lemma resampleDial_spec (initial : Int) (rs : List Nat) (t : Int)
    (rest : List Nat) (h : resampleDial initial rs = some (t, rest)) :
    30 ≤ (t - initial).natAbs ∧ 0 ≤ t ∧ t ≤ 360 := by
  induction rs generalizing rest with
  | nil => simp [resampleDial] at h
  | cons n rs tail_ih =>
      rw [resampleDial] at h
      by_cases hc : (((n : Int) % 361) - initial).natAbs < 30
      · rw [if_pos hc] at h
        exact tail_ih rest h
      · rw [if_neg hc] at h
        obtain ⟨h1, h2⟩ := Prod.mk.injEq .. ▸ Option.some.inj h
        subst h1
        exact ⟨by omega, by omega⟩

lemma generateControlStates_switch (rs : List Nat) (iv tv : CtrlVal) (lab : String)
    (h : generateControlStates "switch" rs = some (iv, tv, lab)) :
    ∃ v : Bool, iv = .boolV v ∧ tv = .boolV (!v) := by
  rw [generateControlStates, if_pos rfl] at h
  split at h
  · split at h
    · simp only [Option.some.injEq, Prod.mk.injEq] at h
      exact ⟨_, h.1.symm, h.2.1.symm⟩
    · exact absurd h (by simp)
  · exact absurd h (by simp)

lemma generateControlStates_slider (rs : List Nat) (iv tv : CtrlVal) (lab : String)
    (h : generateControlStates "slider" rs = some (iv, tv, lab)) :
    ∃ a b : Int, iv = .intV a ∧ tv = .intV b ∧ b ≠ a ∧
      0 ≤ a ∧ a ≤ 100 ∧ 0 ≤ b ∧ b ≤ 100 := by
  rw [generateControlStates, if_neg (by decide), if_pos rfl] at h
  split at h
  · rename_i initial rs1 hpr
    split at h
    · rename_i target rs2 hrt
      split at h
      · rename_i label rs3 _
        simp only [Option.some.injEq, Prod.mk.injEq] at h
        obtain ⟨hne, ht0, ht1⟩ := resampleSlider_spec _ _ _ _ hrt
        have hib : 0 ≤ initial ∧ initial ≤ 100 := by
          cases rs with
          | nil => simp [pyRandint] at hpr
          | cons n rest =>
              simp only [pyRandint, Option.some.injEq, Prod.mk.injEq] at hpr
              omega
        exact ⟨initial, target, h.1.symm, h.2.1.symm, hne, hib.1, hib.2, ht0, ht1⟩
      · exact absurd h (by simp)
    · exact absurd h (by simp)
  · exact absurd h (by simp)

lemma generateControlStates_button (rs : List Nat) (iv tv : CtrlVal) (lab : String)
    (h : generateControlStates "button" rs = some (iv, tv, lab)) :
    iv = .boolV false ∧ tv = .boolV true := by
  rw [generateControlStates, if_neg (by decide), if_neg (by decide), if_pos rfl] at h
  split at h
  · simp only [Option.some.injEq, Prod.mk.injEq] at h
    exact ⟨h.1.symm, h.2.1.symm⟩
  · exact absurd h (by simp)

lemma generateControlStates_dial (rs : List Nat) (iv tv : CtrlVal) (lab : String)
    (h : generateControlStates "dial" rs = some (iv, tv, lab)) :
    ∃ a b : Int, iv = .intV a ∧ tv = .intV b ∧ 30 ≤ (b - a).natAbs ∧
      0 ≤ a ∧ a ≤ 360 ∧ 0 ≤ b ∧ b ≤ 360 := by
  rw [generateControlStates, if_neg (by decide), if_neg (by decide),
      if_neg (by decide), if_pos rfl] at h
  split at h
  · rename_i initial rs1 hpr
    split at h
    · rename_i target rs2 hrt
      split at h
      · rename_i label rs3 _
        simp only [Option.some.injEq, Prod.mk.injEq] at h
        obtain ⟨hd, ht0, ht1⟩ := resampleDial_spec _ _ _ _ hrt
        have hib : 0 ≤ initial ∧ initial ≤ 360 := by
          cases rs with
          | nil => simp [pyRandint] at hpr
          | cons n rest =>
              simp only [pyRandint, Option.some.injEq, Prod.mk.injEq] at hpr
              omega
        exact ⟨initial, target, h.1.symm, h.2.1.symm, hd, hib.1, hib.2, ht0, ht1⟩
      · exact absurd h (by simp)
    · exact absurd h (by simp)
  · exact absurd h (by simp)

/-- C1 counterexample: the dial generator accepts initial 0, target 350
(linear difference 350 ≥ 30), yet the angular distance
`min(|Δ|, 360 - |Δ|)` of that pair is 10 < 30. -/
theorem dial_angular_distance_cex :
    generateControlStates "dial" [0, 350, 0]
      = some (.intV 0, .intV 350, "Rotation") ∧
    min ((350 - 0 : Int)).natAbs (360 - ((350 - 0 : Int)).natAbs) < 30 := by
  constructor
  · decide
  · decide

/-- C1 (amended): every control produced by `_generate_control_states` has
`initial_state ≠ target_state` when its type is switch, slider or dial; a
dial satisfies `|target - initial| ≥ 30` for the plain (linear, not
angular) difference; a button is always `False → True`. -/
theorem control_states_invariants (ctype : String) (rs : List Nat)
    (iv tv : CtrlVal) (lab : String)
    (h : generateControlStates ctype rs = some (iv, tv, lab)) :
    ((ctype = "switch" ∨ ctype = "slider" ∨ ctype = "dial") → iv ≠ tv) ∧
    (ctype = "dial" →
      ∃ a b : Int, iv = .intV a ∧ tv = .intV b ∧ 30 ≤ (b - a).natAbs) ∧
    (ctype = "button" → iv = .boolV false ∧ tv = .boolV true) := by
  refine ⟨?_, ?_, ?_⟩
  · rintro (rfl | rfl | rfl)
    · obtain ⟨v, hiv, htv⟩ := generateControlStates_switch rs iv tv lab h
      subst hiv; subst htv
      cases v <;> simp
    · obtain ⟨a, b, hiv, htv, hne, -, -, -, -⟩ :=
        generateControlStates_slider rs iv tv lab h
      subst hiv; subst htv
      intro heq
      exact hne (CtrlVal.intV.injEq .. ▸ heq).symm
    · obtain ⟨a, b, hiv, htv, hd, -, -, -, -⟩ :=
        generateControlStates_dial rs iv tv lab h
      subst hiv; subst htv
      intro heq
      have : a = b := CtrlVal.intV.injEq .. ▸ heq
      omega
  · rintro rfl
    obtain ⟨a, b, hiv, htv, hd, -, -, -, -⟩ := generateControlStates_dial rs iv tv lab h
    exact ⟨a, b, hiv, htv, hd⟩
  · rintro rfl
    exact generateControlStates_button rs iv tv lab h

/-- C1 witness: a concrete switch control generated from the stream [0, 0]
satisfies the non-identity invariant. -/
theorem control_states_invariants_witness :
    CtrlVal.boolV true ≠ CtrlVal.boolV false :=
  (control_states_invariants "switch" [0, 0] (.boolV true) (.boolV false) "Power"
    (by decide)).1 (Or.inl rfl)

/-- C8 counterexample: `random.randint(0, 360)` includes 360, so the dial
generator can produce `initial_state = 360`, outside the claimed
half-open range [0, 360). -/
theorem dial_range_cex :
    ¬ (∀ (rs : List Nat) (a b : Int) (lab : String),
        generateControlStates "dial" rs = some (.intV a, .intV b, lab) →
        0 ≤ a ∧ a < 360 ∧ 0 ≤ b ∧ b < 360) := by
  intro hall
  have h := hall [360, 0, 0] 360 0 "Rotation" (by decide)
  omega

/-- C8 (amended): every dial control produced by `_generate_control_states`
has both states in the closed range [0, 360] (inclusive of 360, since
`random.randint` includes both endpoints). -/
theorem dial_states_range (rs : List Nat) (a b : Int) (lab : String)
    (h : generateControlStates "dial" rs = some (.intV a, .intV b, lab)) :
    0 ≤ a ∧ a ≤ 360 ∧ 0 ≤ b ∧ b ≤ 360 := by
  obtain ⟨x, y, hx, hy, -, h1, h2, h3, h4⟩ :=
    generateControlStates_dial rs (.intV a) (.intV b) lab h
  have hax : a = x := CtrlVal.intV.injEq .. ▸ hx
  have hby : b = y := CtrlVal.intV.injEq .. ▸ hy
  subst hax; subst hby
  exact ⟨h1, h2, h3, h4⟩

/-- C8 witness: the dial control generated from the stream [0, 100, 0]
(initial 0, target 100) lies in [0, 360]. -/
theorem dial_states_range_witness :
    0 ≤ (0 : Int) ∧ (0 : Int) ≤ 360 ∧ 0 ≤ (100 : Int) ∧ (100 : Int) ≤ 360 :=
  dial_states_range [0, 100, 0] 0 100 "Rotation" (by decide)

/-- C9: for any control type outside {switch, slider, button, dial},
`_generate_control_states` falls through to the default branch and returns
`(False, True, "Control")` without consuming randomness or failing. -/
theorem unknown_type_default (ctype : String) (rs : List Nat)
    (h1 : ctype ≠ "switch") (h2 : ctype ≠ "slider")
    (h3 : ctype ≠ "button") (h4 : ctype ≠ "dial") :
    generateControlStates ctype rs = some (.boolV false, .boolV true, "Control") := by
  rw [generateControlStates, if_neg h1, if_neg h2, if_neg h3, if_neg h4]

/-- C9 witness: the unknown type "gauge" with an empty randomness stream
yields the fixed default triple. -/
theorem unknown_type_default_witness :
    generateControlStates "gauge" [] = some (.boolV false, .boolV true, "Control") :=
  unknown_type_default "gauge" [] (by decide) (by decide) (by decide) (by decide)

/-- Fixed outer margin used by `_generate_panel_data` (generator.py line 99). -/
def layoutMargin : Int := 40

/-- Usable interior width: `width - 2 * margin` (generator.py line 100). -/
def panelWidth (width : Int) : Int := width - 2 * layoutMargin

/-- Usable interior height: `height - 2 * margin` (generator.py line 101). -/
def panelHeight (height : Int) : Int := height - 2 * layoutMargin

/-- Effective control count: `max(2, min(5, num_controls))`
(generator.py line 95). -/
def effCount (numControls : Int) : Nat := (max 2 (min 5 numControls)).toNat

/-- Number of layout columns: 2 in grid mode (count ≥ 4), else 1
(generator.py lines 107-116). -/
def layoutCols (n : Nat) : Nat := if 4 ≤ n then 2 else 1

/-- Number of layout rows: `(n + 1) // 2` in grid mode, else `n`
(generator.py lines 110-115). -/
def layoutRows (n : Nat) : Nat := if 4 ≤ n then (n + 1) / 2 else n

/-- Cell width `panel_width // cols`; Python `//` is floor division. -/
def cellWidth (width : Int) (n : Nat) : Int :=
  Int.fdiv (panelWidth width) (layoutCols n)

/-- Cell height `panel_height // rows`. -/
def cellHeight (height : Int) (n : Nat) : Int :=
  Int.fdiv (panelHeight height) (layoutRows n)

/-- Column index of control `i`: `i % cols` in grid mode, else 0
(generator.py lines 129-134). -/
def colOf (n i : Nat) : Nat := if 4 ≤ n then i % 2 else 0

/-- Row index of control `i`: `i // cols` in grid mode, else `i`. -/
def rowOf (n i : Nat) : Nat := if 4 ≤ n then i / 2 else i

/-- Center x of control `i`: `margin + col * cell_width + cell_width // 2`
(generator.py line 136). -/
def posX (width : Int) (n i : Nat) : Int :=
  layoutMargin + (colOf n i : Int) * cellWidth width n + Int.fdiv (cellWidth width n) 2

/-- Center y of control `i`: `margin + row * cell_height + cell_height // 2`
(generator.py line 137). -/
def posY (height : Int) (n i : Nat) : Int :=
  layoutMargin + (rowOf n i : Int) * cellHeight height n + Int.fdiv (cellHeight height n) 2

/-- Control width `max(80, min(120, cell_width - 40))` (generator.py line 140). -/
def controlW (width : Int) (n : Nat) : Int := max 80 (min 120 (cellWidth width n - 40))

/-- Control height `max(60, min(80, cell_height - 40))` (generator.py line 141). -/
def controlH (height : Int) (n : Nat) : Int := max 60 (min 80 (cellHeight height n - 40))

/-- Two centered rectangles overlap when their interiors intersect:
both center distances are strictly below the half-extent sums. -/
def boxesOverlap (x1 y1 w1 h1 x2 y2 w2 h2 : Int) : Prop :=
  2 * ((x1 - x2).natAbs : Int) < w1 + w2 ∧ 2 * ((y1 - y2).natAbs : Int) < h1 + h2

instance (x1 y1 w1 h1 x2 y2 w2 h2 : Int) :
    Decidable (boxesOverlap x1 y1 w1 h1 x2 y2 w2 h2) := by
  unfold boxesOverlap
  infer_instance

/-- Position and size assigned to each of the `effCount` loop iterations of
`_generate_panel_data` (generator.py lines 120-153), one entry per control. -/
def panelSlots (width height numControls : Int) : List ((Int × Int) × (Int × Int)) :=
  (List.range (effCount numControls)).map fun i =>
    ((posX width (effCount numControls) i, posY height (effCount numControls) i),
     (controlW width (effCount numControls), controlH height (effCount numControls)))

/-- C7: `_generate_panel_data` never rejects a configuration: it generates
exactly `max(2, min(5, num_controls))` controls, a count always in [2, 5]. -/
theorem num_controls_clamped (width height numControls : Int) :
    (panelSlots width height numControls).length = effCount numControls ∧
    2 ≤ effCount numControls ∧ effCount numControls ≤ 5 ∧
    (effCount numControls : Int) = max 2 (min 5 numControls) := by
  refine ⟨by simp [panelSlots], ?_, ?_, ?_⟩ <;> (unfold effCount; omega)

/-- C3 counterexample: with image_size 100×100 and num_controls 2 the cells
(20 wide, 10 tall) are smaller than the 80×60 minimum control size, so the
two generated controls' bounding boxes overlap. -/
theorem layout_overlap_cex :
    boxesOverlap (posX 100 (effCount 2) 0) (posY 100 (effCount 2) 0)
      (controlW 100 (effCount 2)) (controlH 100 (effCount 2))
      (posX 100 (effCount 2) 1) (posY 100 (effCount 2) 1)
      (controlW 100 (effCount 2)) (controlH 100 (effCount 2)) := by
  decide

/-- C3 (amended): the layout of `_generate_panel_data` uses 2 columns iff
the effective control count is at least 4 (else a single column), and the
bounding boxes of two distinct controls are disjoint provided the layout
cells are at least as large as the minimum control size (cell width ≥ 80
and cell height ≥ 60); for smaller canvases the 80×60 minimum makes
controls spill out of their cells and overlap. -/
theorem layout_grid_and_no_overlap (width height numControls : Int) (i j : Nat) :
    (layoutCols (effCount numControls) = 2 ↔ 4 ≤ effCount numControls) ∧
    (i ≠ j → i < effCount numControls → j < effCount numControls →
      80 ≤ cellWidth width (effCount numControls) →
      60 ≤ cellHeight height (effCount numControls) →
      ¬ boxesOverlap
          (posX width (effCount numControls) i) (posY height (effCount numControls) i)
          (controlW width (effCount numControls)) (controlH height (effCount numControls))
          (posX width (effCount numControls) j) (posY height (effCount numControls) j)
          (controlW width (effCount numControls)) (controlH height (effCount numControls))) := by
  constructor
  · unfold layoutCols
    split <;> simp_all
  · intro hij hi hj hcw hch hov
    have hn5 : effCount numControls ≤ 5 := by unfold effCount; omega
    have hi5 : i < 5 := lt_of_lt_of_le hi hn5
    have hj5 : j < 5 := lt_of_lt_of_le hj hn5
    by_cases h4 : 4 ≤ effCount numControls
    · simp only [boxesOverlap, posX, posY, controlW, controlH, colOf, rowOf,
        h4, if_true] at hov
      interval_cases i <;> interval_cases j <;> omega
    · simp only [boxesOverlap, posX, posY, controlW, controlH, colOf, rowOf,
        h4, if_false] at hov
      interval_cases i <;> interval_cases j <;> omega

/-- C3 witness: a 400×400 canvas with 4 controls is laid out on a 2-column
grid and controls 0 and 1 do not overlap. -/
theorem layout_grid_and_no_overlap_witness :
    (layoutCols (effCount 4) = 2 ↔ 4 ≤ effCount 4) ∧
    ¬ boxesOverlap (posX 400 (effCount 4) 0) (posY 400 (effCount 4) 0)
      (controlW 400 (effCount 4)) (controlH 400 (effCount 4))
      (posX 400 (effCount 4) 1) (posY 400 (effCount 4) 1)
      (controlW 400 (effCount 4)) (controlH 400 (effCount 4)) :=
  ⟨(layout_grid_and_no_overlap 400 400 4 0 1).1,
   (layout_grid_and_no_overlap 400 400 4 0 1).2 (by decide) (by decide) (by decide)
     (by decide) (by decide)⟩

/-- Record stored by `ControlPanel.add_control` (generator.py lines 29-40). -/
structure Control where
  ctype : String
  position : Int × Int
  size : Int × Int
  initialState : CtrlVal
  targetState : CtrlVal
  label : String
deriving DecidableEq

/-- Semantic content of a rendered frame: each control together with the
resolved state value it is drawn with (the border, background and fonts are
the same in every frame, so the drawn states determine the raster). -/
abbrev Frame := List (Control × Option CtrlVal)

/-- Embedding of `_render_panel` (generator.py lines 208-236): every control
is drawn with its target state when `renderTarget` is set, else with its
initial state. -/
def renderPanel (controls : List Control) (renderTarget : Bool) : Frame :=
  controls.map fun c => (c, some (if renderTarget then c.targetState else c.initialState))

/-- Interpolated frame drawn by the transition loop of
`_create_panel_animation_frames` (generator.py lines 515-525): every control
is drawn with its state interpolated at the given progress. -/
def interpRender (controls : List Control) (progress : ℚ) : Frame :=
  controls.map fun c =>
    (c, interpolateControlState c.ctype c.initialState c.targetState progress)

/-- Embedding of `_create_panel_animation_frames` (generator.py lines
482-534): `hold_frames` copies of the initial render, `transition_frames`
interpolated frames at progress `i / (transition_frames - 1)` (1.0 when
`transition_frames ≤ 1`), then `hold_frames` copies of the target render. -/
def createPanelAnimationFrames (controls : List Control)
    (holdFrames transitionFrames : Nat) : List Frame :=
  List.replicate holdFrames (renderPanel controls false)
    ++ (List.range transitionFrames).map (fun (i : Nat) =>
        interpRender controls
          (if 1 < transitionFrames then (i : ℚ) / ((transitionFrames : ℚ) - 1) else 1))
    ++ List.replicate holdFrames (renderPanel controls true)

/-- C6: for transition_frames > 1 the frame list is `hold_frames` copies of
the full-initial render, then for each `i < transition_frames` a frame with
every control interpolated at progress `i / (transition_frames - 1)`, then
`hold_frames` copies of the full-target render, for a total length of
`2 × hold_frames + transition_frames`. -/
theorem animation_frames_structure (controls : List Control)
    (holdFrames transitionFrames : Nat) (ht : 1 < transitionFrames) :
    createPanelAnimationFrames controls holdFrames transitionFrames
      = List.replicate holdFrames (renderPanel controls false)
        ++ (List.range transitionFrames).map (fun (i : Nat) =>
            interpRender controls ((i : ℚ) / ((transitionFrames : ℚ) - 1)))
        ++ List.replicate holdFrames (renderPanel controls true) ∧
    (createPanelAnimationFrames controls holdFrames transitionFrames).length
      = 2 * holdFrames + transitionFrames := by
  constructor
  · unfold createPanelAnimationFrames
    simp only [ht, if_true]
  · unfold createPanelAnimationFrames
    simp
    omega

/-- C6 witness: hold_frames 5 and transition_frames 30 give exactly 40
frames. -/
theorem animation_frames_structure_witness :
    (createPanelAnimationFrames [] 5 30).length = 40 := by
  have h := (animation_frames_structure [] 5 30 (by norm_num)).2
  simpa using h

/-- C10: `_create_panel_animation_frames` is total at the edge
transition_frames values: with transition_frames = 1 the single transition
frame uses progress 1, with transition_frames = 0 no transition frame is
produced, and for every transition_frames the length is
`2 × hold_frames + transition_frames`. -/
theorem animation_frames_edge_cases (controls : List Control) (holdFrames : Nat) :
    createPanelAnimationFrames controls holdFrames 1
      = List.replicate holdFrames (renderPanel controls false)
        ++ [interpRender controls 1]
        ++ List.replicate holdFrames (renderPanel controls true) ∧
    createPanelAnimationFrames controls holdFrames 0
      = List.replicate holdFrames (renderPanel controls false)
        ++ List.replicate holdFrames (renderPanel controls true) ∧
    ∀ t : Nat, (createPanelAnimationFrames controls holdFrames t).length
      = 2 * holdFrames + t := by
  refine ⟨?_, ?_, ?_⟩
  · unfold createPanelAnimationFrames
    norm_num
  · unfold createPanelAnimationFrames
    simp
  · intro t
    unfold createPanelAnimationFrames
    simp
    omega

end ControlPanelSpec
